import Mathlib

/-!
Verification of the sendly transactional-email core: a shallow embedding of
the crypto vault (`app/security/crypto.py`), the Postmark webhook normalizer
(`app/providers/postmark_provider.py`), the send orchestrator
(`app/commands/send_email_command.py`), the webhook ingestion command
(`app/commands/providers/process_delivery_events_command.py`) and the
tenant settings accessor (`app/models/tenant.py`), together with theorems
settling the specified behaviour of each.

Python strings are modelled as Lean `String`; Python `None`-able strings as
`Option String`; machine-level external primitives (Fernet, base64, the KDF,
ISO-8601 parsing, JSON parsing) are abstracted as explicitly quantified
function parameters constrained only by their documented contracts.
-/

namespace Sendly

/-! ### Python string primitives -/

/-- Model of Python `str.startswith`, on the underlying character list. -/
def pyStartsWith (s p : String) : Bool :=
  p.data.isPrefixOf s.data

/-- Model of Python `str.lower` (ASCII case folding). -/
def pyLower (s : String) : String :=
  String.mk (s.data.map Char.toLower)

theorem list_isPrefixOf_append_left {α : Type} [BEq α] [LawfulBEq α]
    (l m : List α) : l.isPrefixOf (l ++ m) = true := by
  induction l with
  | nil => simp [List.isPrefixOf]
  | cons a l ih => simp [List.isPrefixOf, ih]

theorem list_isPrefixOf_length_le {α : Type} [BEq α]
    (l m : List α) (h : l.isPrefixOf m = true) : l.length ≤ m.length := by
  induction l generalizing m with
  | nil => simp
  | cons a l ih =>
    cases m with
    | nil => simp [List.isPrefixOf] at h
    | cons b m =>
      simp only [List.isPrefixOf, Bool.and_eq_true] at h
      simpa using ih m h.2

theorem string_data_append (s t : String) : (s ++ t).data = s.data ++ t.data := rfl

theorem string_mk_data (s : String) : String.mk s.data = s := by
  cases s
  rfl

/-! ### JSON values

Python dict/list/str/num/bool/None payloads that flow through the core
(webhook raw payloads, event details, tenant settings). -/

inductive Json where
  | null : Json
  | bool (b : Bool) : Json
  | num (n : Int) : Json
  | str (s : String) : Json
  | arr (xs : List Json) : Json
  | obj (fields : List (String × Json)) : Json

/-- Model of `json.dumps` (compact form; string escaping elided, which is
sound for the marker-related facts proved below since escaping never changes
the leading character of an object dump). -/
def jsonDumps : Json → String
  | .null => "null"
  | .bool true => "true"
  | .bool false => "false"
  | .num n => toString n
  | .str s => "\"" ++ s ++ "\""
  | .arr xs => "[" ++ String.intercalate ", " (xs.attach.map (fun x => jsonDumps x.1)) ++ "]"
  | .obj fs => "\x7b" ++
      String.intercalate ", "
        (fs.attach.map (fun kv => "\"" ++ kv.1.1 ++ "\": " ++ jsonDumps kv.1.2)) ++ "\x7d"
decreasing_by
  · rcases x with ⟨v, hv⟩
    have h := List.sizeOf_lt_of_mem hv
    simp only [Json.arr.sizeOf_spec]
    omega
  · rcases kv with ⟨⟨a, b⟩, hk⟩
    have h2 := List.sizeOf_lt_of_mem hk
    simp only [Prod.mk.sizeOf_spec] at h2
    simp only [Json.obj.sizeOf_spec]
    omega

theorem jsonDumps_obj_head (fs : List (String × Json)) :
    (jsonDumps (Json.obj fs)).data.head? = some '\x7b' := by
  rw [jsonDumps, string_data_append, string_data_append]
  rfl

theorem nonempty_of_brace_head (s : String) (h : s.data.head? = some '\x7b') :
    s ≠ "" := by
  intro he
  subst he
  simp at h

/-! ### Fernet model

`cryptography.fernet.Fernet` is external to the repository; it is modelled
abstractly by its documented contract: deterministic-in-the-model encrypt /
decrypt inverses, every token carries the fixed `"gAAAAA"` marker (version
byte `0x80` with a 21st-century timestamp), and no string shorter than the
76-character minimum token length (base64 of version + timestamp + IV + HMAC
= 57 bytes) ever decrypts. -/

/-- The fixed Fernet token marker used by the source as the ciphertext tag. -/
def fernetMarker : String := "gAAAAA"

/-- A string whose first character is an opening brace (as every
`json.dumps` of a dict is) never carries the Fernet marker. -/
theorem no_marker_of_brace_head (s : String) (h : s.data.head? = some '\x7b') :
    pyStartsWith s fernetMarker = false := by
  unfold pyStartsWith
  cases hs : s.data with
  | nil => simp [hs] at h
  | cons c l =>
    rw [hs] at h
    simp at h
    subst h
    have hm : fernetMarker.data = 'g' :: ['A', 'A', 'A', 'A', 'A'] := rfl
    rw [hm]
    simp only [List.isPrefixOf]
    rw [show ('g' == '\x7b') = false from rfl]
    simp

structure FernetLike where
  enc : String → String
  dec : String → Option String
  dec_enc : ∀ s, dec (enc s) = some s
  enc_marker : ∀ s, pyStartsWith (enc s) fernetMarker = true
  dec_short : ∀ t, t.data.length < 76 → dec t = none

/-- A concrete executable instance of the Fernet contract, used to evaluate
the crypto wrapper on closed inputs. -/
def refFernetHeader : String := fernetMarker ++ String.mk (List.replicate 70 'A')

theorem refFernetHeader_data_length : refFernetHeader.data.length = 76 := by
  have : refFernetHeader.data = fernetMarker.data ++ List.replicate 70 'A' := rfl
  simp [this, fernetMarker]

def refFernet : FernetLike where
  enc s := refFernetHeader ++ s
  dec t :=
    if refFernetHeader.data.isPrefixOf t.data then some (String.mk (t.data.drop 76))
    else none
  dec_enc := by
    intro s
    have hd : (refFernetHeader ++ s).data = refFernetHeader.data ++ s.data :=
      string_data_append _ _
    have hp : refFernetHeader.data.isPrefixOf (refFernetHeader.data ++ s.data) = true :=
      list_isPrefixOf_append_left _ _
    simp only [hd, hp, if_true]
    have hdrop : (refFernetHeader.data ++ s.data).drop 76 = s.data := by
      have := List.drop_left refFernetHeader.data s.data
      rwa [refFernetHeader_data_length] at this
    rw [hdrop, string_mk_data]
  enc_marker := by
    intro s
    have hd : (refFernetHeader ++ s).data
        = fernetMarker.data ++ (List.replicate 70 'A' ++ s.data) := by
      simp [refFernetHeader, string_data_append, List.append_assoc]
    simp only [pyStartsWith, hd]
    exact list_isPrefixOf_append_left _ _
  dec_short := by
    intro t ht
    have : ¬ refFernetHeader.data.isPrefixOf t.data = true := by
      intro hp
      have := list_isPrefixOf_length_le _ _ hp
      rw [refFernetHeader_data_length] at this
      omega
    simp only [this, if_false]
    simp only [Bool.not_eq_true] at this
    simp [this]

/-! ### Crypto vault (`app/security/crypto.py`) -/

/-- `CryptoManager.encrypt_password`.  `None` and `""` pass through as `""`;
marker-carrying input is returned unchanged; otherwise the Fernet encryption
is applied (its `try/except` re-wrap never fires in the model since `enc`
is total). -/
def encrypt_password (F : FernetLike) (plain_text : Option String) :
    Except String String :=
  match plain_text with
  | none => .ok ""
  | some s =>
    if s = "" then .ok ""
    else if pyStartsWith s fernetMarker then .ok s
    else .ok (F.enc s)

/-- `CryptoManager.decrypt_password`.  `None` and `""` pass through as `""`;
input without the marker is returned unchanged (legacy passthrough); marker-
carrying input that Fernet rejects raises the `InvalidToken` `ValueError`. -/
def decrypt_password (F : FernetLike) (encrypted_text : Option String) :
    Except String String :=
  match encrypted_text with
  | none => .ok ""
  | some s =>
    if s = "" then .ok ""
    else if pyStartsWith s fernetMarker then
      match F.dec s with
      | some p => .ok p
      | none => .error "Invalid encrypted token - cannot decrypt"
    else .ok s

/-- `CryptoManager.is_encrypted`. -/
def is_encrypted (text : Option String) : Bool :=
  match text with
  | none => false
  | some s => !(s == "") && pyStartsWith s fernetMarker

/-- `decrypt_password` applied to the outcome of `encrypt_password`: the
round-trip of the spec's claim. -/
def cryptoRoundtrip (F : FernetLike) (s : String) : Except String String :=
  match encrypt_password F (some s) with
  | .ok c => decrypt_password F (some c)
  | .error e => .error e

theorem pyStartsWith_empty_marker : pyStartsWith "" fernetMarker = false := by
  decide

theorem cryptoRoundtrip_marker_short (F : FernetLike) (s : String)
    (hne : s ≠ "") (hm : pyStartsWith s fernetMarker = true)
    (hlen : s.data.length < 76) :
    cryptoRoundtrip F s = .error "Invalid encrypted token - cannot decrypt" := by
  have hdec := F.dec_short s hlen
  simp [cryptoRoundtrip, encrypt_password, decrypt_password, hne, hm, hdec]

/-- C2 fails as stated: the plaintext `"gAAAAAx"` is non-empty, yet the
round-trip does not return it — `encrypt_password` passes it through
unchanged because it carries the Fernet marker, and `decrypt_password` then
rejects it as an invalid token instead of returning the plaintext. -/
theorem C2_counterexample :
    cryptoRoundtrip refFernet "gAAAAAx" ≠ Except.ok "gAAAAAx" := by
  have h := cryptoRoundtrip_marker_short refFernet "gAAAAAx" (by decide) (by decide)
    (by decide)
  rw [h]
  intro hc
  exact Except.noConfusion hc

/-- C2 (amended): for every non-empty plaintext string that does not itself
start with the Fernet marker prefix `"gAAAAA"`,
`decrypt_password (encrypt_password s) = s`, for any Fernet instance. -/
theorem C2_roundtrip_amended (F : FernetLike) (s : String) (h1 : s ≠ "")
    (h2 : pyStartsWith s fernetMarker = false) :
    cryptoRoundtrip F s = Except.ok s := by
  have henc : encrypt_password F (some s) = .ok (F.enc s) := by
    simp [encrypt_password, h1, h2]
  have hne : F.enc s ≠ "" := by
    intro he
    have hmk := F.enc_marker s
    rw [he, pyStartsWith_empty_marker] at hmk
    exact Bool.noConfusion hmk
  simp [cryptoRoundtrip, henc, decrypt_password, hne, F.enc_marker s, F.dec_enc s]

theorem C2_roundtrip_amended_witness :
    "hello" ≠ "" ∧ pyStartsWith "hello" fernetMarker = false ∧
      cryptoRoundtrip refFernet "hello" = Except.ok "hello" :=
  ⟨by decide, by decide, C2_roundtrip_amended refFernet "hello" (by decide) (by decide)⟩

/-! ### Key resolution (`CryptoManager._get_or_create_key`)

`base64.urlsafe_b64decode` and `PBKDF2HMAC.derive`-plus-encode are external
primitives, abstracted as explicit parameters `b64decode` and `kdf`. -/

inductive KeyError where
  | invalidKey (msg : String)
  | missingKey (msg : String)

/-- The configuration fields `_get_or_create_key` reads (`app/config.py`
settings: `fernet_key`, `environment`, `fernet_salt`). -/
structure CryptoSettings where
  fernet_key : Option String
  environment : String
  fernet_salt : String

/-- Python `fernet_key + "=" * (-len(fernet_key) % 4)`. -/
def pyPad4 (k : String) : String :=
  k ++ String.mk (List.replicate ((4 - k.data.length % 4) % 4) '=')

/-- The development/test branch of `_get_or_create_key`: derive a key from
the salt via PBKDF2 in `development`/`test`, otherwise fail with the
missing-key `ValueError`. -/
def deriveKeyBranch (kdf : String → String) (st : CryptoSettings) :
    Except KeyError String :=
  if st.environment = "development" ∨ st.environment = "test" then
    .ok (kdf st.fernet_salt)
  else
    .error (.missingKey
      "FERNET_KEY environment variable is required in production. Set it to a base64-encoded 32-byte key.")

/-- `CryptoManager._get_or_create_key`: an explicit configured key (Python
truthiness: non-`None` and non-empty) is padded and base64-decoded and must
yield exactly 32 bytes; failures of either step surface as the
`"Invalid FERNET_KEY format"` `ValueError`.  Without an explicit key the
derivation branch applies. -/
def get_or_create_key (b64decode : String → Option (List Nat))
    (kdf : String → String) (st : CryptoSettings) : Except KeyError String :=
  match st.fernet_key with
  | some k =>
    if k = "" then deriveKeyBranch kdf st
    else
      let padded := pyPad4 k
      match b64decode padded with
      | some decoded_bytes =>
        if decoded_bytes.length ≠ 32 then
          .error (.invalidKey
            "Invalid FERNET_KEY format: Fernet key must decode to exactly 32 bytes")
        else .ok padded
      | none => .error (.invalidKey "Invalid FERNET_KEY format: incorrect padding")
  | none => deriveKeyBranch kdf st

/-- C6: key resolution fails fast.  (i) An explicit key whose decode does not
yield exactly 32 bytes, or does not decode at all, raises the invalid-key
failure; (ii) with no explicit key, a key is derived from the salt exactly in
the `development`/`test` environments; (iii) in `production` with no explicit
key the missing-key failure is raised, never a derived key. -/
theorem C6_key_resolution (b64decode : String → Option (List Nat))
    (kdf : String → String) (st : CryptoSettings) :
    (∀ k decoded, st.fernet_key = some k → k ≠ "" →
      b64decode (pyPad4 k) = some decoded → decoded.length ≠ 32 →
      ∃ m, get_or_create_key b64decode kdf st = .error (.invalidKey m)) ∧
    (∀ k, st.fernet_key = some k → k ≠ "" → b64decode (pyPad4 k) = none →
      ∃ m, get_or_create_key b64decode kdf st = .error (.invalidKey m)) ∧
    (∀ k decoded, st.fernet_key = some k → k ≠ "" →
      b64decode (pyPad4 k) = some decoded → decoded.length = 32 →
      get_or_create_key b64decode kdf st = .ok (pyPad4 k)) ∧
    ((st.fernet_key = none ∨ st.fernet_key = some "") →
      (st.environment = "development" ∨ st.environment = "test") →
      get_or_create_key b64decode kdf st = .ok (kdf st.fernet_salt)) ∧
    ((st.fernet_key = none ∨ st.fernet_key = some "") →
      st.environment = "production" →
      ∃ m, get_or_create_key b64decode kdf st = .error (.missingKey m)) := by
  refine ⟨?_, ?_, ?_, ?_, ?_⟩
  · intro k decoded hk hne hdec hlen
    exact ⟨"Invalid FERNET_KEY format: Fernet key must decode to exactly 32 bytes",
      by simp [get_or_create_key, hk, hne, hdec, hlen]⟩
  · intro k hk hne hdec
    exact ⟨"Invalid FERNET_KEY format: incorrect padding",
      by simp [get_or_create_key, hk, hne, hdec]⟩
  · intro k decoded hk hne hdec hlen
    simp [get_or_create_key, hk, hne, hdec, hlen]
  · rintro (hk | hk) henv <;>
      simp [get_or_create_key, hk, deriveKeyBranch, henv]
  · rintro (hk | hk) henv <;>
      exact ⟨"FERNET_KEY environment variable is required in production. Set it to a base64-encoded 32-byte key.",
        by simp [get_or_create_key, hk, deriveKeyBranch, henv]⟩

theorem C6_key_resolution_witness :
    (∃ m, get_or_create_key (fun _ => some (List.replicate 16 0)) (fun s => s)
        ⟨some "shortkey", "production", "salty"⟩ = .error (.invalidKey m)) ∧
    (∃ m, get_or_create_key (fun _ => some (List.replicate 16 0)) (fun s => s)
        ⟨none, "production", "salty"⟩ = .error (.missingKey m)) ∧
    (get_or_create_key (fun _ => some (List.replicate 16 0)) (fun s => s)
        ⟨none, "test", "salty"⟩ = .ok "salty") := by
  obtain ⟨h1, -, -, -, -⟩ :=
    C6_key_resolution (fun _ => some (List.replicate 16 0)) (fun s => s)
      ⟨some "shortkey", "production", "salty"⟩
  obtain ⟨-, -, -, -, h5b⟩ :=
    C6_key_resolution (fun _ => some (List.replicate 16 0)) (fun s => s)
      ⟨none, "production", "salty"⟩
  obtain ⟨-, -, -, h4c, -⟩ :=
    C6_key_resolution (fun _ => some (List.replicate 16 0)) (fun s => s)
      ⟨none, "test", "salty"⟩
  refine ⟨?_, ?_, ?_⟩
  · exact h1 "shortkey" (List.replicate 16 0) rfl (by decide) rfl (by simp)
  · exact h5b (Or.inl rfl) rfl
  · exact h4c (Or.inl rfl) (Or.inr rfl)

/-! ### Persisted data model (`app/models`, `app/schemas/email.py`,
`alembic/versions/init.py`)

Row ids (UUIDs in the source) are modelled as the next free natural number,
which models `uuid4` freshness; timestamps as naturals. -/

structure EmailRow where
  id : Nat
  from_email : String
  to_email : String
  subject : String
  body : String
  status : String
  sent_at : Option Nat
  provider : String
  provider_message_id : Option String
  project_id : Option Nat
  error_message : Option String

structure EmailEventRow where
  id : Nat
  email_id : Nat
  event_type : String
  event_timestamp : Nat
  details : Json

structure DB where
  emails : List EmailRow
  events : List EmailEventRow

/-- `EmailStatus` constants (`app/constants/email.py`). -/
def EmailStatus.QUEUED : String := "queued"

def EmailStatus.SENT : String := "sent"

def EmailStatus.FAILED : String := "failed"

/-- Schema `EmailCreate`. -/
structure EmailCreate where
  project_id : Option Nat
  provider : String
  from_email : String
  to_email : String
  subject : String
  body : String
  status : String
  provider_message_id : Option String := none

/-- Schema `EmailUpdate`: every field optional; the outer `Option` is
pydantic's set/unset distinction (`model_dump(exclude_unset=True)`). -/
structure EmailUpdate where
  status : Option String := none
  sent_at : Option Nat := none
  provider_message_id : Option (Option String) := none
  error_message : Option (Option String) := none

/-- Schema `EmailEventCreate`. -/
structure EmailEventCreate where
  email_id : Nat
  event_type : String
  event_timestamp : Nat
  details : Json

/-- The `setattr` loop of `EmailService.update_email` applied to one row. -/
def applyEmailUpdate (r : EmailRow) (u : EmailUpdate) : EmailRow :=
  { r with
    status := u.status.getD r.status
    sent_at := match u.sent_at with
      | some t => some t
      | none => r.sent_at
    provider_message_id := u.provider_message_id.getD r.provider_message_id
    error_message := u.error_message.getD r.error_message }

/-- `EmailService.create_email`: insert a fresh row. -/
def create_email (db : DB) (e : EmailCreate) : DB × EmailRow :=
  let row : EmailRow :=
    { id := db.emails.length
      from_email := e.from_email
      to_email := e.to_email
      subject := e.subject
      body := e.body
      status := e.status
      sent_at := none
      provider := e.provider
      provider_message_id := e.provider_message_id
      project_id := e.project_id
      error_message := none }
  ({ db with emails := db.emails ++ [row] }, row)

/-- `EmailService.update_email`: find the first row with the given id, set
the supplied attributes, return the updated row (or `none` if absent). -/
def update_email : List EmailRow → Nat → EmailUpdate → List EmailRow × Option EmailRow
  | [], _, _ => ([], none)
  | r :: rest, email_id, u =>
    if r.id = email_id then
      (applyEmailUpdate r u :: rest, some (applyEmailUpdate r u))
    else
      let (rest', found) := update_email rest email_id u
      (r :: rest', found)

/-- `EmailService.create_email_event`: insert a fresh event row. -/
def create_email_event (db : DB) (e : EmailEventCreate) : DB × EmailEventRow :=
  let row : EmailEventRow :=
    { id := db.events.length
      email_id := e.email_id
      event_type := e.event_type
      event_timestamp := e.event_timestamp
      details := e.details }
  ({ db with events := db.events ++ [row] }, row)

/-- Database sanity: row ids were assigned by earlier inserts (models the
freshness of `uuid4` keys), and every event references an existing email. -/
def DBWellFormed (db : DB) : Prop :=
  (∀ r ∈ db.emails, r.id < db.emails.length) ∧
    (∀ ev ∈ db.events, ev.email_id < db.emails.length)

instance (db : DB) : Decidable (DBWellFormed db) := by
  unfold DBWellFormed
  infer_instance

/-! ### Send orchestrator (`app/commands/send_email_command.py`) -/

/-- Modelled from the spec: `EmailCreateRequest` (the Canonical Send Request)
is imported by the command from `app.providers.base` but its declaration is
not under `src/`; the fields below are the spec's Canonical Send Request
fields the command reads (sender address, recipient list, subject, HTML body,
template-variable mapping, owning project). -/
structure EmailCreateRequest where
  project_id : Option Nat
  from_email : String
  -- the source field is `to`, a reserved token in Lean
  to_ : List String
  subject : String
  html : String
  template_variables : List (String × Json)

/-- Provider adapter `EmailSendResult` (`app/providers/base.py`). -/
structure EmailSendResult where
  ok : Bool
  provider_message_id : Option String := none
  error_code : Option String := none
  error_message : Option String := none

/-- Outcome of the external Mako `Template(req.html).render(**vars)` call:
rendered text, a `NameError` (undefined variable), or any other exception. -/
inductive RenderOutcome where
  | rendered (html : String)
  | nameError (msg : String)
  | otherError (msg : String)

inductive SendError where
  | templateRender (msg : String)
  | renderRaised (msg : String)
  | indexError

/-- An apostrophe character, used by Python's `repr` of a string list. -/
def pyQuote : String := String.mk [Char.ofNat 39]

/-- Python `str(list(keys))` as interpolated into the template error. -/
def pyStrListRepr (keys : List String) : String :=
  "[" ++ String.intercalate ", " (keys.map (fun k => pyQuote ++ k ++ pyQuote)) ++ "]"

/-- The `ValueError` message raised by the command on a rendering
`NameError`. -/
def templateErrorMessage (vars : List (String × Json)) (err : String) : String :=
  "Template rendering failed: undefined variable in template. Template variables provided: "
    ++ pyStrListRepr (vars.map Prod.fst) ++ (". Error: " ++ err)

def jsonOfOptStr : Option String → Json
  | none => Json.null
  | some s => Json.str s

structure SendOutcome where
  db : DB
  providerCalled : Bool
  result : Except SendError (Option EmailRow)

/-- `SendEmailCommand.execute`.  `render` is the outcome of the external
Mako call on `(req.html, req.template_variables)`; `sendResult` the
provider adapter's response; `provider_id` the resolved default provider's
slug; `now` the `datetime.utcnow()` reading. -/
def send_email_execute (render : RenderOutcome) (sendResult : EmailSendResult)
    (provider_id : String) (req : EmailCreateRequest) (now : Nat) (db : DB) :
    SendOutcome :=
  match render with
  | .nameError e =>
    ⟨db, false, .error (.templateRender (templateErrorMessage req.template_variables e))⟩
  | .otherError e => ⟨db, false, .error (.renderRaised e)⟩
  | .rendered html =>
    match req.to_ with
    | [] => ⟨db, false, .error .indexError⟩
    | to0 :: _ =>
      let created := create_email db
        { project_id := req.project_id
          provider := provider_id
          from_email := req.from_email
          to_email := to0
          subject := req.subject
          body := html
          status := EmailStatus.QUEUED }
      let db1 := created.1
      let email := created.2
      if sendResult.ok then
        let upd := update_email db1.emails email.id
          { status := some EmailStatus.SENT
            sent_at := some now
            provider_message_id := some sendResult.provider_message_id }
        ⟨{ db1 with emails := upd.1 }, true, .ok upd.2⟩
      else
        let upd := update_email db1.emails email.id
          { status := some EmailStatus.FAILED }
        let db2 : DB := { emails := upd.1, events := db1.events }
        let evd := create_email_event db2
          { email_id := email.id
            event_type := "failed"
            event_timestamp := now
            details := Json.obj
              [("error_code", jsonOfOptStr sendResult.error_code),
               ("error_message", jsonOfOptStr sendResult.error_message)] }
        ⟨evd.1, true, .ok upd.2⟩

theorem update_email_append_fresh (emails : List EmailRow) (row : EmailRow)
    (eid : Nat) (u : EmailUpdate) (hid : row.id = eid)
    (h : ∀ r ∈ emails, r.id ≠ eid) :
    update_email (emails ++ [row]) eid u
      = (emails ++ [applyEmailUpdate row u], some (applyEmailUpdate row u)) := by
  induction emails with
  | nil => simp [update_email, hid]
  | cons r rest ih =>
    have hne : r.id ≠ eid := h r (by simp)
    have ih' := ih (fun x hx => h x (by simp [hx]))
    simp only [List.cons_append, update_email, hne, if_false]
    simp [ih']

/-- C4: on a successful send (`ok=True`, `provider_message_id="MID-1"`,
`to=["a@b.com"]`) the resulting Email is `sent`, has `sent_at` stamped and
`"MID-1"` stored on the persisted row, and no Email Event is created. -/
theorem C4_send_success (sendResult : EmailSendResult) (provider_id : String)
    (req : EmailCreateRequest) (html : String) (now : Nat) (db : DB)
    (hwf : DBWellFormed db) (hto : req.to_ = ["a@b.com"])
    (hok : sendResult.ok = true)
    (hmid : sendResult.provider_message_id = some "MID-1") :
    ∃ row,
      (send_email_execute (.rendered html) sendResult provider_id req now db).result
        = .ok (some row) ∧
      row.status = "sent" ∧ row.sent_at = some now ∧
      row.provider_message_id = some "MID-1" ∧ row.to_email = "a@b.com" ∧
      row ∈ (send_email_execute (.rendered html) sendResult provider_id req now db).db.emails ∧
      (send_email_execute (.rendered html) sendResult provider_id req now db).db.events
        = db.events := by
  have hfresh : ∀ r ∈ db.emails, r.id ≠ db.emails.length := by
    intro r hr
    have := hwf.1 r hr
    omega
  have hupd := update_email_append_fresh db.emails
    { id := db.emails.length
      from_email := req.from_email
      to_email := "a@b.com"
      subject := req.subject
      body := html
      status := EmailStatus.QUEUED
      sent_at := none
      provider := provider_id
      provider_message_id := none
      project_id := req.project_id
      error_message := none }
    db.emails.length
    { status := some EmailStatus.SENT
      sent_at := some now
      provider_message_id := some sendResult.provider_message_id }
    rfl hfresh
  have hout : send_email_execute (.rendered html) sendResult provider_id req now db
      = ⟨⟨db.emails ++ [applyEmailUpdate
            { id := db.emails.length
              from_email := req.from_email
              to_email := "a@b.com"
              subject := req.subject
              body := html
              status := EmailStatus.QUEUED
              sent_at := none
              provider := provider_id
              provider_message_id := none
              project_id := req.project_id
              error_message := none }
            { status := some EmailStatus.SENT
              sent_at := some now
              provider_message_id := some sendResult.provider_message_id }],
          db.events⟩, true,
        .ok (some (applyEmailUpdate
            { id := db.emails.length
              from_email := req.from_email
              to_email := "a@b.com"
              subject := req.subject
              body := html
              status := EmailStatus.QUEUED
              sent_at := none
              provider := provider_id
              provider_message_id := none
              project_id := req.project_id
              error_message := none }
            { status := some EmailStatus.SENT
              sent_at := some now
              provider_message_id := some sendResult.provider_message_id }))⟩ := by
    simp only [send_email_execute, hto, create_email, hok, if_true, hupd]
  rw [hout]
  refine ⟨_, rfl, ?_, ?_, ?_, ?_, ?_, ?_⟩ <;>
    simp [applyEmailUpdate, EmailStatus.SENT, hmid]

theorem C4_send_success_witness :
    ∃ row,
      (send_email_execute (.rendered "<p>hi</p>") ⟨true, some "MID-1", none, none⟩
          "postmark" ⟨none, "s@x.com", ["a@b.com"], "Subj", "<p>hi</p>", []⟩ 5
          ⟨[], []⟩).result = .ok (some row) ∧
      row.status = "sent" ∧ row.sent_at = some 5 ∧
      row.provider_message_id = some "MID-1" ∧ row.to_email = "a@b.com" ∧
      row ∈ (send_email_execute (.rendered "<p>hi</p>") ⟨true, some "MID-1", none, none⟩
          "postmark" ⟨none, "s@x.com", ["a@b.com"], "Subj", "<p>hi</p>", []⟩ 5
          ⟨[], []⟩).db.emails ∧
      (send_email_execute (.rendered "<p>hi</p>") ⟨true, some "MID-1", none, none⟩
          "postmark" ⟨none, "s@x.com", ["a@b.com"], "Subj", "<p>hi</p>", []⟩ 5
          ⟨[], []⟩).db.events = DB.events ⟨[], []⟩ :=
  C4_send_success ⟨true, some "MID-1", none, none⟩ "postmark"
    ⟨none, "s@x.com", ["a@b.com"], "Subj", "<p>hi</p>", []⟩ "<p>hi</p>" 5 ⟨[], []⟩
    (by decide) rfl rfl rfl

/-- C3: on a failed send (`ok=False`, `error_code="E1"`,
`error_message="boom"`) the resulting Email is `failed` and exactly one
Email Event exists for it, of type `failed` with the error code/message as
its details. -/
theorem C3_send_failure (sendResult : EmailSendResult) (provider_id : String)
    (req : EmailCreateRequest) (html : String) (now : Nat) (db : DB)
    (hwf : DBWellFormed db) (hto : req.to_ ≠ [])
    (hok : sendResult.ok = false)
    (hec : sendResult.error_code = some "E1")
    (hem : sendResult.error_message = some "boom") :
    ∃ row ev,
      (send_email_execute (.rendered html) sendResult provider_id req now db).result
        = .ok (some row) ∧
      row.status = "failed" ∧
      (send_email_execute (.rendered html) sendResult provider_id req now db).db.events.filter
          (fun e => e.email_id == row.id) = [ev] ∧
      ev.event_type = "failed" ∧
      ev.details = Json.obj
        [("error_code", Json.str "E1"), ("error_message", Json.str "boom")] := by
  obtain ⟨to0, rest, hto'⟩ : ∃ a l, req.to_ = a :: l := by
    cases h : req.to_ with
    | nil => exact absurd h hto
    | cons a l => exact ⟨a, l, rfl⟩
  have hfresh : ∀ r ∈ db.emails, r.id ≠ db.emails.length := by
    intro r hr
    have := hwf.1 r hr
    omega
  have hupd := update_email_append_fresh db.emails
    { id := db.emails.length
      from_email := req.from_email
      to_email := to0
      subject := req.subject
      body := html
      status := EmailStatus.QUEUED
      sent_at := none
      provider := provider_id
      provider_message_id := none
      project_id := req.project_id
      error_message := none }
    db.emails.length
    { status := some EmailStatus.FAILED }
    rfl hfresh
  have hout : send_email_execute (.rendered html) sendResult provider_id req now db
      = ⟨⟨db.emails ++ [applyEmailUpdate
            { id := db.emails.length
              from_email := req.from_email
              to_email := to0
              subject := req.subject
              body := html
              status := EmailStatus.QUEUED
              sent_at := none
              provider := provider_id
              provider_message_id := none
              project_id := req.project_id
              error_message := none }
            { status := some EmailStatus.FAILED }],
          db.events ++ [{ id := db.events.length
                          email_id := db.emails.length
                          event_type := "failed"
                          event_timestamp := now
                          details := Json.obj
                            [("error_code", jsonOfOptStr sendResult.error_code),
                             ("error_message", jsonOfOptStr sendResult.error_message)] }]⟩,
        true,
        .ok (some (applyEmailUpdate
            { id := db.emails.length
              from_email := req.from_email
              to_email := to0
              subject := req.subject
              body := html
              status := EmailStatus.QUEUED
              sent_at := none
              provider := provider_id
              provider_message_id := none
              project_id := req.project_id
              error_message := none }
            { status := some EmailStatus.FAILED }))⟩ := by
    simp only [send_email_execute, hto', create_email, hok, Bool.false_eq_true,
      if_false, hupd, create_email_event]
  rw [hout]
  have hfilter_old : db.events.filter (fun e => e.email_id == db.emails.length) = [] := by
    rw [List.filter_eq_nil_iff]
    intro e he
    have := hwf.2 e he
    simp only [beq_iff_eq]
    omega
  refine ⟨_, { id := db.events.length
               email_id := db.emails.length
               event_type := "failed"
               event_timestamp := now
               details := Json.obj
                 [("error_code", jsonOfOptStr sendResult.error_code),
                  ("error_message", jsonOfOptStr sendResult.error_message)] },
    rfl, ?_, ?_, ?_, ?_⟩
  · simp [applyEmailUpdate, EmailStatus.FAILED]
  · rw [show (applyEmailUpdate
        { id := db.emails.length
          from_email := req.from_email
          to_email := to0
          subject := req.subject
          body := html
          status := EmailStatus.QUEUED
          sent_at := none
          provider := provider_id
          provider_message_id := none
          project_id := req.project_id
          error_message := none }
        { status := some EmailStatus.FAILED }).id = db.emails.length from rfl]
    rw [List.filter_append, hfilter_old]
    simp
  · rfl
  · rw [hec, hem]
    rfl

theorem C3_send_failure_witness :
    ∃ row ev,
      (send_email_execute (.rendered "<p>hi</p>") ⟨false, none, some "E1", some "boom"⟩
          "postmark" ⟨none, "s@x.com", ["a@b.com"], "Subj", "<p>hi</p>", []⟩ 5
          ⟨[], []⟩).result = .ok (some row) ∧
      row.status = "failed" ∧
      (send_email_execute (.rendered "<p>hi</p>") ⟨false, none, some "E1", some "boom"⟩
          "postmark" ⟨none, "s@x.com", ["a@b.com"], "Subj", "<p>hi</p>", []⟩ 5
          ⟨[], []⟩).db.events.filter (fun e => e.email_id == row.id) = [ev] ∧
      ev.event_type = "failed" ∧
      ev.details = Json.obj
        [("error_code", Json.str "E1"), ("error_message", Json.str "boom")] :=
  C3_send_failure ⟨false, none, some "E1", some "boom"⟩ "postmark"
    ⟨none, "s@x.com", ["a@b.com"], "Subj", "<p>hi</p>", []⟩ "<p>hi</p>" 5 ⟨[], []⟩
    (by decide) (by decide) rfl rfl rfl

/-- Decidable check that `sub` occurs as a contiguous sublist of `l`. -/
def hasSublist {α : Type} [BEq α] : List α → List α → Bool
  | [], sub => sub.isEmpty
  | l@(_ :: t), sub => sub.isPrefixOf l || hasSublist t sub

theorem hasSublist_nil_right {α : Type} [BEq α] (l : List α) :
    hasSublist l [] = true := by
  cases l <;> simp [hasSublist, List.isPrefixOf]

theorem hasSublist_append_mid {α : Type} [BEq α] [LawfulBEq α] (a b c : List α) :
    hasSublist (a ++ b ++ c) b = true := by
  induction a with
  | nil =>
    simp only [List.nil_append]
    cases b with
    | nil => exact hasSublist_nil_right c
    | cons x xs =>
      have hp : (x :: xs).isPrefixOf (x :: (xs ++ c)) = true :=
        list_isPrefixOf_append_left (x :: xs) c
      rw [List.cons_append]
      simp [hasSublist, hp]
  | cons x a ih =>
    simp only [List.cons_append]
    rw [show hasSublist (x :: (a ++ b ++ c)) b
        = (b.isPrefixOf (x :: (a ++ b ++ c)) || hasSublist (a ++ b ++ c) b)
      from rfl, ih, Bool.or_true]

/-- C8 fails as stated: a rendering failure that is not a `NameError` — here
a Mako syntax error in the template body — still aborts before any
persistence or provider call, but the source's `except NameError` clause
does not catch it, so the raised error is Mako's own message, which does not
name the supplied variable keys. -/
theorem C8_counterexample :
    (send_email_execute (.otherError "unexpected EOF while parsing template")
        ⟨true, none, none, none⟩ "postmark"
        ⟨none, "s@x.com", ["a@b.com"], "Subj", "<% broken",
          [("user", Json.str "u")]⟩ 0 ⟨[], []⟩).db = ⟨[], []⟩ ∧
    (send_email_execute (.otherError "unexpected EOF while parsing template")
        ⟨true, none, none, none⟩ "postmark"
        ⟨none, "s@x.com", ["a@b.com"], "Subj", "<% broken",
          [("user", Json.str "u")]⟩ 0 ⟨[], []⟩).providerCalled = false ∧
    (send_email_execute (.otherError "unexpected EOF while parsing template")
        ⟨true, none, none, none⟩ "postmark"
        ⟨none, "s@x.com", ["a@b.com"], "Subj", "<% broken",
          [("user", Json.str "u")]⟩ 0 ⟨[], []⟩).result
      = .error (.renderRaised "unexpected EOF while parsing template") ∧
    ∀ pre post, "unexpected EOF while parsing template"
      ≠ pre ++ pyStrListRepr (([("user", Json.str "u")]
          : List (String × Json)).map Prod.fst) ++ post := by
  refine ⟨rfl, rfl, rfl, ?_⟩
  intro pre post h
  have hsub : hasSublist ("unexpected EOF while parsing template").data
      (pyStrListRepr ["user"]).data = true := by
    rw [h, string_data_append, string_data_append]
    exact hasSublist_append_mid _ _ _
  exact absurd hsub (by decide)

/-- C8 (amended): when the Mako render of the body fails, the command aborts
before any persistence or provider call — the database is unchanged and the
adapter is not invoked; in the undefined-variable (`NameError`) case the
raised `ValueError` names the full list of supplied template-variable keys,
while any other rendering failure propagates verbatim, without the keys. -/
theorem C8_render_failure (sendResult : EmailSendResult) (provider_id : String)
    (req : EmailCreateRequest) (now : Nat) (db : DB) :
    (∀ e,
      (send_email_execute (.nameError e) sendResult provider_id req now db).db = db ∧
      (send_email_execute (.nameError e) sendResult provider_id req now db).providerCalled
        = false ∧
      ∃ post,
        (send_email_execute (.nameError e) sendResult provider_id req now db).result
          = .error (.templateRender
            ("Template rendering failed: undefined variable in template. Template variables provided: "
              ++ pyStrListRepr (req.template_variables.map Prod.fst) ++ post))) ∧
    (∀ e,
      (send_email_execute (.otherError e) sendResult provider_id req now db).db = db ∧
      (send_email_execute (.otherError e) sendResult provider_id req now db).providerCalled
        = false ∧
      (send_email_execute (.otherError e) sendResult provider_id req now db).result
        = .error (.renderRaised e)) := by
  refine ⟨fun e => ⟨rfl, rfl, ⟨". Error: " ++ e, ?_⟩⟩, fun e => ⟨rfl, rfl, rfl⟩⟩
  rfl

theorem C8_render_failure_witness :
    ((send_email_execute (.nameError "name user is not defined")
        ⟨true, none, none, none⟩ "postmark"
        ⟨none, "s@x.com", ["a@b.com"], "Subj", "${user}", [("user", Json.str "u")]⟩ 0
        ⟨[], []⟩).db = ⟨[], []⟩ ∧
      (send_email_execute (.nameError "name user is not defined")
        ⟨true, none, none, none⟩ "postmark"
        ⟨none, "s@x.com", ["a@b.com"], "Subj", "${user}", [("user", Json.str "u")]⟩ 0
        ⟨[], []⟩).providerCalled = false ∧
      ∃ post,
        (send_email_execute (.nameError "name user is not defined")
          ⟨true, none, none, none⟩ "postmark"
          ⟨none, "s@x.com", ["a@b.com"], "Subj", "${user}", [("user", Json.str "u")]⟩ 0
          ⟨[], []⟩).result = .error (.templateRender
            ("Template rendering failed: undefined variable in template. Template variables provided: "
              ++ pyStrListRepr ([("user", Json.str "u")].map Prod.fst) ++ post))) :=
  ((C8_render_failure ⟨true, none, none, none⟩ "postmark"
      ⟨none, "s@x.com", ["a@b.com"], "Subj", "${user}", [("user", Json.str "u")]⟩ 0
      ⟨[], []⟩).1 "name user is not defined")

/-! ### Webhook ingestion & correlation
(`app/commands/providers/process_delivery_events_command.py`) -/

/-- The normalized webhook event (`EmailEvent` in `app/providers/base.py`). -/
structure EmailEvent where
  tenant_id : String
  provider_name : String
  provider_message_id : String
  type : String
  occurred_at : Nat
  raw_payload : Json

/-- Modelled from the spec: `EmailService.get_email_by_provider_message_id`
is called by the command but not declared under `src/`; the spec's
`findEmailByProviderMessageId(slug, id)` says: look up the Email by provider
slug + provider message id. -/
def get_email_by_provider_message_id (emails : List EmailRow)
    (provider_message_id : String) (provider : String) : Option EmailRow :=
  emails.find? (fun r =>
    r.provider_message_id == some provider_message_id && r.provider == provider)

/-- `ProcessDeliveryEventsCommand._process_single_event`: raises
`ValueError` when no email correlates, otherwise creates one Email Event
row carrying the event's type, timestamp and raw payload. -/
def process_single_event (db : DB) (event : EmailEvent) (provider_id : String) :
    Except String DB :=
  match get_email_by_provider_message_id db.emails event.provider_message_id
      provider_id with
  | none =>
    .error ("Email not found for provider_message_id: " ++ event.provider_message_id)
  | some email =>
    .ok (create_email_event db
      { email_id := email.id
        event_type := event.type
        event_timestamp := event.occurred_at
        details := event.raw_payload }).1

structure WebhookResult where
  status : String
  provider : String
  events_received : Nat
  events_processed : Nat
  events_failed : Nat
  failures : Option (List (String × String))

/-- The per-event `try/except` loop of `execute`, threading the database,
the processed counter and the failure descriptors. -/
def processEventsLoop (provider_id : String) :
    List EmailEvent → DB → Nat → List (String × String) →
      DB × Nat × List (String × String)
  | [], db, processed, failed => (db, processed, failed)
  | ev :: rest, db, processed, failed =>
    match process_single_event db ev provider_id with
    | .ok db1 => processEventsLoop provider_id rest db1 (processed + 1) failed
    | .error e =>
      processEventsLoop provider_id rest db processed
        (failed ++ [(ev.provider_message_id, e)])

/-- `ProcessDeliveryEventsCommand.execute`.  `verified` is the result of
`provider.verify_webhook(body_bytes, headers)`; `parsed_events` the list
returned by `provider.parse_webhook(payload, headers)`; a failed
verification raises the 401 `HTTPException`. -/
def process_delivery_events_execute (verified : Bool)
    (parsed_events : List EmailEvent) (provider_id : String) (db : DB) :
    Except String (DB × WebhookResult) :=
  if verified then
    let res := processEventsLoop provider_id parsed_events db 0 []
    .ok (res.1,
      { status := if res.2.1 > 0 then "success" else "partial_failure"
        provider := provider_id
        events_received := parsed_events.length
        events_processed := res.2.1
        events_failed := res.2.2.length
        failures := if res.2.2.isEmpty then none else some res.2.2 })
  else
    .error "Webhook signature verification failed"

/-- Whether an event correlates to an email of the given snapshot. -/
def eventCorrelates (emails : List EmailRow) (provider_id : String)
    (e : EmailEvent) : Bool :=
  (get_email_by_provider_message_id emails e.provider_message_id
    provider_id).isSome

def notFoundFailure (e : EmailEvent) : String × String :=
  (e.provider_message_id,
    "Email not found for provider_message_id: " ++ e.provider_message_id)

theorem processEventsLoop_spec (provider_id : String) (events : List EmailEvent) :
    ∀ db processed failed,
      (processEventsLoop provider_id events db processed failed).1.emails
        = db.emails ∧
      (processEventsLoop provider_id events db processed failed).2.1
        = processed + events.countP (eventCorrelates db.emails provider_id) ∧
      (processEventsLoop provider_id events db processed failed).2.2
        = failed ++ (events.filter
            (fun e => !(eventCorrelates db.emails provider_id e))).map notFoundFailure ∧
      ∃ tail,
        (processEventsLoop provider_id events db processed failed).1.events
          = db.events ++ tail := by
  induction events with
  | nil =>
    intro db processed failed
    exact ⟨rfl, by simp [processEventsLoop], by simp [processEventsLoop],
      ⟨[], by simp [processEventsLoop]⟩⟩
  | cons ev rest ih =>
    intro db processed failed
    by_cases h : eventCorrelates db.emails provider_id ev
    · obtain ⟨em, hm⟩ : ∃ em, get_email_by_provider_message_id db.emails
          ev.provider_message_id provider_id = some em := by
        have := h
        unfold eventCorrelates at this
        exact Option.isSome_iff_exists.mp this
      have hstep : process_single_event db ev provider_id
          = .ok ⟨db.emails, db.events ++
              [{ id := db.events.length
                 email_id := em.id
                 event_type := ev.type
                 event_timestamp := ev.occurred_at
                 details := ev.raw_payload }]⟩ := by
        simp only [process_single_event, hm, create_email_event]
      have hloop : processEventsLoop provider_id (ev :: rest) db processed failed
          = processEventsLoop provider_id rest
              ⟨db.emails, db.events ++
                [{ id := db.events.length
                   email_id := em.id
                   event_type := ev.type
                   event_timestamp := ev.occurred_at
                   details := ev.raw_payload }]⟩ (processed + 1) failed := by
        simp only [processEventsLoop, hstep]
      obtain ⟨ihA, ihB, ihC, tail, ihD⟩ := ih
        ⟨db.emails, db.events ++
          [{ id := db.events.length
             email_id := em.id
             event_type := ev.type
             event_timestamp := ev.occurred_at
             details := ev.raw_payload }]⟩ (processed + 1) failed
      dsimp only at ihA ihB ihC ihD
      refine ⟨?_, ?_, ?_, ?_⟩
      · rw [hloop]
        exact ihA
      · rw [hloop, ihB, List.countP_cons_of_pos _ _ h]
        omega
      · rw [hloop, ihC]
        have : (ev :: rest).filter
            (fun e => !(eventCorrelates db.emails provider_id e))
            = rest.filter (fun e => !(eventCorrelates db.emails provider_id e)) := by
          simp [List.filter, h]
        rw [this]
      · rw [hloop]
        exact ⟨_, by rw [ihD, List.append_assoc]⟩
    · have hnone : get_email_by_provider_message_id db.emails
          ev.provider_message_id provider_id = none := by
        unfold eventCorrelates at h
        simpa using Option.not_isSome_iff_eq_none.mp (by simpa using h)
      have hstep : process_single_event db ev provider_id
          = .error ("Email not found for provider_message_id: "
              ++ ev.provider_message_id) := by
        simp only [process_single_event, hnone]
      have hloop : processEventsLoop provider_id (ev :: rest) db processed failed
          = processEventsLoop provider_id rest db processed
              (failed ++ [notFoundFailure ev]) := by
        simp only [processEventsLoop, hstep, notFoundFailure]
      obtain ⟨ihA, ihB, ihC, tail, ihD⟩ := ih db processed (failed ++ [notFoundFailure ev])
      refine ⟨?_, ?_, ?_, ?_⟩
      · rw [hloop]
        exact ihA
      · rw [hloop, ihB, List.countP_cons_of_neg _ _ (by simpa using h)]
      · rw [hloop, ihC]
        have : (ev :: rest).filter
            (fun e => !(eventCorrelates db.emails provider_id e))
            = ev :: rest.filter (fun e => !(eventCorrelates db.emails provider_id e)) := by
          simp [List.filter, h]
        rw [this, List.append_assoc]
        rfl
      · rw [hloop]
        exact ⟨tail, ihD⟩

theorem length_filter_split {α : Type} (p : α → Bool) (l : List α) :
    (l.filter p).length + (l.filter (fun a => !p a)).length = l.length := by
  induction l with
  | nil => rfl
  | cons a l ih => by_cases h : p a <;> simp [List.filter, h] <;> omega

/-- C1 fails as stated on the zero-event edge case: a verified webhook batch
from which `parse_webhook` yields zero events reports status
`"partial_failure"`, not `"success"`, because the source computes
`"success" if processed_count > 0 else "partial_failure"`. -/
theorem C1_counterexample :
    ∃ db1 res,
      process_delivery_events_execute true [] "postmark" ⟨[], []⟩ = .ok (db1, res) ∧
      res.events_received = 0 ∧ res.status = "partial_failure" ∧
      res.status ≠ "success" :=
  ⟨_, _, rfl, rfl, rfl, by decide⟩

/-- C1 (amended): after successful verification the reported status is
`"success"` exactly when at least one event was processed and
`"partial_failure"` otherwise — including when zero events were received. -/
theorem C1_status_amended (parsed_events : List EmailEvent)
    (provider_id : String) (db : DB) :
    ∃ db1 res,
      process_delivery_events_execute true parsed_events provider_id db
        = .ok (db1, res) ∧
      (res.status = "success" ↔ 0 < res.events_processed) ∧
      (res.status = "success" ∨ res.status = "partial_failure") := by
  refine ⟨_, _, rfl, ?_, ?_⟩ <;>
    by_cases h : 0 < (processEventsLoop provider_id parsed_events db 0 []).2.1 <;>
    simp [h]

theorem C1_status_amended_witness :
    ∃ db1 res,
      process_delivery_events_execute true [] "postmark" ⟨[], []⟩ = .ok (db1, res) ∧
      (res.status = "success" ↔ 0 < res.events_processed) ∧
      (res.status = "success" ∨ res.status = "partial_failure") :=
  C1_status_amended [] "postmark" ⟨[], []⟩

/-- C10: the aggregate result of a verified ingestion satisfies
`events_received = events_processed + events_failed`; `failures` is `null`
exactly when `events_failed = 0`; and otherwise `failures` carries exactly
one descriptor per non-correlating event, keyed by that event's
`provider_message_id`. -/
theorem C10_aggregate_invariant (parsed_events : List EmailEvent)
    (provider_id : String) (db : DB) :
    ∃ db1 res,
      process_delivery_events_execute true parsed_events provider_id db
        = .ok (db1, res) ∧
      res.events_received = res.events_processed + res.events_failed ∧
      (res.failures = none ↔ res.events_failed = 0) ∧
      (∀ l, res.failures = some l →
        l = (parsed_events.filter
            (fun e => !(eventCorrelates db.emails provider_id e))).map
          notFoundFailure) := by
  obtain ⟨-, hB, hC, -⟩ := processEventsLoop_spec provider_id parsed_events db 0 []
  refine ⟨_, _, rfl, ?_, ?_, ?_⟩
  · dsimp only
    rw [hB, hC]
    simp only [List.nil_append, Nat.zero_add, List.length_map]
    have hs := length_filter_split (eventCorrelates db.emails provider_id)
      parsed_events
    rw [List.countP_eq_length_filter]
    omega
  · dsimp only
    rw [hC]
    simp only [List.nil_append]
    cases hL : (parsed_events.filter
        (fun e => !(eventCorrelates db.emails provider_id e))).map notFoundFailure with
    | nil => simp
    | cons x xs => simp
  · intro l hl
    dsimp only at hl
    rw [hC] at hl
    simp only [List.nil_append] at hl
    cases hL : (parsed_events.filter
        (fun e => !(eventCorrelates db.emails provider_id e))).map notFoundFailure with
    | nil => rw [hL] at hl; simp at hl
    | cons x xs =>
      rw [hL] at hl
      simp at hl
      rw [← hl, ← hL]

theorem C10_aggregate_invariant_witness :
    ∃ db1 res,
      process_delivery_events_execute true [] "postmark" ⟨[], []⟩ = .ok (db1, res) ∧
      res.events_received = res.events_processed + res.events_failed ∧
      (res.failures = none ↔ res.events_failed = 0) ∧
      (∀ l, res.failures = some l →
        l = (([] : List EmailEvent).filter
            (fun e => !(eventCorrelates (DB.emails ⟨[], []⟩) "postmark" e))).map
          notFoundFailure) :=
  C10_aggregate_invariant [] "postmark" ⟨[], []⟩

/-- C7: events are processed independently.  In a verified two-event batch
where the first event correlates to an email and the second does not, the
result reports `events_processed=1`, `events_failed=1` with the second
event's descriptor, and the first event's Email Event row exists in the
final database despite the second's failure. -/
theorem C7_batch_isolation (db : DB) (provider_id : String)
    (e1 e2 : EmailEvent) (em : EmailRow)
    (h1 : get_email_by_provider_message_id db.emails e1.provider_message_id
      provider_id = some em)
    (h2 : get_email_by_provider_message_id db.emails e2.provider_message_id
      provider_id = none) :
    ∃ db1 res,
      process_delivery_events_execute true [e1, e2] provider_id db
        = .ok (db1, res) ∧
      res.events_processed = 1 ∧ res.events_failed = 1 ∧
      res.status = "success" ∧
      res.failures = some [notFoundFailure e2] ∧
      ({ id := db.events.length
         email_id := em.id
         event_type := e1.type
         event_timestamp := e1.occurred_at
         details := e1.raw_payload } : EmailEventRow) ∈ db1.events := by
  have hstep1 : process_single_event db e1 provider_id
      = .ok ⟨db.emails, db.events ++
          [{ id := db.events.length
             email_id := em.id
             event_type := e1.type
             event_timestamp := e1.occurred_at
             details := e1.raw_payload }]⟩ := by
    simp only [process_single_event, h1, create_email_event]
  have hstep2 : process_single_event
      (⟨db.emails, db.events ++
          [{ id := db.events.length
             email_id := em.id
             event_type := e1.type
             event_timestamp := e1.occurred_at
             details := e1.raw_payload }]⟩ : DB) e2 provider_id
      = .error ("Email not found for provider_message_id: "
          ++ e2.provider_message_id) := by
    simp only [process_single_event]
    rw [show get_email_by_provider_message_id
        (⟨db.emails, db.events ++
            [{ id := db.events.length
               email_id := em.id
               event_type := e1.type
               event_timestamp := e1.occurred_at
               details := e1.raw_payload }]⟩ : DB).emails e2.provider_message_id
        provider_id
      = get_email_by_provider_message_id db.emails e2.provider_message_id
          provider_id from rfl, h2]
  have hloop : processEventsLoop provider_id [e1, e2] db 0 []
      = (⟨db.emails, db.events ++
            [{ id := db.events.length
               email_id := em.id
               event_type := e1.type
               event_timestamp := e1.occurred_at
               details := e1.raw_payload }]⟩,
          1, [notFoundFailure e2]) := by
    simp only [processEventsLoop, hstep1, hstep2, notFoundFailure]
    simp
  refine ⟨⟨db.emails, db.events ++
      [{ id := db.events.length
         email_id := em.id
         event_type := e1.type
         event_timestamp := e1.occurred_at
         details := e1.raw_payload }]⟩,
    { status := "success"
      provider := provider_id
      events_received := 2
      events_processed := 1
      events_failed := 1
      failures := some [notFoundFailure e2] }, ?_, rfl, rfl, rfl, rfl, ?_⟩
  · rw [show process_delivery_events_execute true [e1, e2] provider_id db
        = .ok ((processEventsLoop provider_id [e1, e2] db 0 []).1,
          { status := if (processEventsLoop provider_id [e1, e2] db 0 []).2.1 > 0
              then "success" else "partial_failure"
            provider := provider_id
            events_received := ([e1, e2] : List EmailEvent).length
            events_processed := (processEventsLoop provider_id [e1, e2] db 0 []).2.1
            events_failed := (processEventsLoop provider_id [e1, e2] db 0 []).2.2.length
            failures := if (processEventsLoop provider_id [e1, e2] db 0 []).2.2.isEmpty
              then none
              else some (processEventsLoop provider_id [e1, e2] db 0 []).2.2 })
      from rfl]
    rw [hloop]
    rfl
  · simp

theorem C7_batch_isolation_witness :
    ∃ db1 res,
      process_delivery_events_execute true
        [⟨"t", "postmark", "MID-1", "delivered", 7, Json.null⟩,
         ⟨"t", "postmark", "NOPE", "opened", 8, Json.null⟩] "postmark"
        ⟨[⟨0, "s@x.com", "a@b.com", "Subj", "B", "sent", some 1, "postmark",
            some "MID-1", none, none⟩], []⟩
        = .ok (db1, res) ∧
      res.events_processed = 1 ∧ res.events_failed = 1 ∧
      res.status = "success" ∧
      res.failures = some [notFoundFailure
        ⟨"t", "postmark", "NOPE", "opened", 8, Json.null⟩] ∧
      ({ id := 0
         email_id := 0
         event_type := "delivered"
         event_timestamp := 7
         details := Json.null } : EmailEventRow) ∈ db1.events :=
  C7_batch_isolation
    ⟨[⟨0, "s@x.com", "a@b.com", "Subj", "B", "sent", some 1, "postmark",
        some "MID-1", none, none⟩], []⟩ "postmark"
    ⟨"t", "postmark", "MID-1", "delivered", 7, Json.null⟩
    ⟨"t", "postmark", "NOPE", "opened", 8, Json.null⟩
    ⟨0, "s@x.com", "a@b.com", "Subj", "B", "sent", some 1, "postmark",
      some "MID-1", none, none⟩
    rfl rfl

/-! ### Postmark webhook normalization (`app/providers/postmark_provider.py`)

The webhook payload is a JSON dict whose fields read by the parser are
strings; it is modelled as an association list.  `datetime.fromisoformat`
composed with the `replace("Z", "+00:00")` and the surrounding `try/except`
is the abstract parameter `parse_ts`; `datetime.now(timezone.utc)` is the
parameter `now`. -/

/-- Python `payload.get(k)`. -/
def pget (payload : List (String × String)) (k : String) : Option String :=
  (payload.find? (fun kv => kv.1 == k)).map (fun kv => kv.2)

/-- Python `payload.get(k, d)`. -/
def pgetD (payload : List (String × String)) (k d : String) : String :=
  (pget payload k).getD d

/-- Python `a or b` for an optional string `a` (``None`` and `""` falsy). -/
def pyOrStr (a : Option String) (b : String) : String :=
  match a with
  | some s => if s = "" then b else s
  | none => b

/-- Python `a or b` where both operands are optional strings. -/
def pyOrOpt (a b : Option String) : Option String :=
  match a with
  | some s => if s = "" then b else some s
  | none => b

/-- `_map_pm_type` (leading underscore dropped): known Postmark record
types map into the canonical vocabulary; otherwise the code falls back to
the record type itself, then the `Type` field, then `"unknown"`. -/
def map_pm_type (record_type : String) (sub_type : Option String) : String :=
  if record_type = "delivery" then "delivered"
  else if record_type = "open" then "opened"
  else if record_type = "click" then "clicked"
  else if record_type = "bounce" then "bounced"
  else if record_type = "spamcomplaint" then "complained"
  else if record_type ≠ "" then record_type
  else
    match sub_type with
    | some s => if s ≠ "" then s else "unknown"
    | none => "unknown"

/-- `PostmarkProvider.parse_webhook`: always yields exactly one event built
from the single-event Postmark payload. -/
def parse_webhook (parse_ts : String → Option Nat) (now : Nat)
    (payload : List (String × String)) : List EmailEvent :=
  let record_type := pyLower (pgetD payload "RecordType" "")
  let msg_id := pyOrStr (pget payload "MessageID")
    (pyOrStr (pget payload "MessageId") "")
  let ts := pyOrOpt (pget payload "ReceivedAt")
    (pyOrOpt (pget payload "DeliveredAt")
      (pyOrOpt (pget payload "BouncedAt") (pget payload "Timestamp")))
  let occurred := match ts with
    | some s => if s = "" then now else (parse_ts s).getD now
    | none => now
  [{ tenant_id := "__resolve_from_routing__"
     provider_name := "postmark"
     provider_message_id := msg_id
     type := map_pm_type record_type (pget payload "Type")
     occurred_at := occurred
     raw_payload := Json.obj (payload.map (fun kv => (kv.1, Json.str kv.2))) }]

/-- The spec's fixed canonical event-type vocabulary. -/
def eventTypeVocabulary : List String :=
  ["sent", "delivered", "opened", "clicked", "bounced", "complained",
   "dropped", "deferred", "spam", "unsubscribed", "failed", "unknown"]

theorem map_pm_type_cases (rt : String) (st : Option String) :
    map_pm_type rt st ∈ eventTypeVocabulary ∨ map_pm_type rt st = rt ∨
      some (map_pm_type rt st) = st := by
  unfold map_pm_type
  by_cases h1 : rt = "delivery"
  · rw [if_pos h1]
    exact Or.inl (by decide)
  rw [if_neg h1]
  by_cases h2 : rt = "open"
  · rw [if_pos h2]
    exact Or.inl (by decide)
  rw [if_neg h2]
  by_cases h3 : rt = "click"
  · rw [if_pos h3]
    exact Or.inl (by decide)
  rw [if_neg h3]
  by_cases h4 : rt = "bounce"
  · rw [if_pos h4]
    exact Or.inl (by decide)
  rw [if_neg h4]
  by_cases h5 : rt = "spamcomplaint"
  · rw [if_pos h5]
    exact Or.inl (by decide)
  rw [if_neg h5]
  by_cases h6 : rt = ""
  · rw [if_neg (not_not_intro h6)]
    cases st with
    | none => exact Or.inl (by decide)
    | some s =>
      dsimp only
      by_cases h7 : s = ""
      · rw [if_neg (not_not_intro h7)]
        exact Or.inl (by decide)
      · rw [if_pos h7]
        exact Or.inr (Or.inr rfl)
  · rw [if_pos h6]
    exact Or.inr (Or.inl rfl)

/-- C5 fails as stated: a payload with `RecordType="SubscriptionChange"`
parses without failing but yields an event whose type is the verbatim
lowercased record type `"subscriptionchange"`, which is outside the fixed
vocabulary, instead of degrading to `"unknown"`. -/
theorem C5_counterexample :
    ∃ e, parse_webhook (fun _ => none) 0 [("RecordType", "SubscriptionChange")]
        = [e] ∧
      e.type = "subscriptionchange" ∧ e.type ∉ eventTypeVocabulary := by
  refine ⟨_, rfl, rfl, by decide⟩

/-- C5 (amended): normalization never fails — every payload yields exactly
one event — and the event's type is drawn from the fixed vocabulary, or
else is the verbatim lowercased `RecordType` (or the payload's `Type`
field); when both `RecordType` and `Type` are missing or empty the type
degrades to `"unknown"`. -/
theorem C5_parse_tolerance (parse_ts : String → Option Nat) (now : Nat)
    (payload : List (String × String)) :
    ∃ e, parse_webhook parse_ts now payload = [e] ∧
      (e.type ∈ eventTypeVocabulary ∨
        e.type = pyLower (pgetD payload "RecordType" "") ∨
        some e.type = pget payload "Type") ∧
      ((pget payload "RecordType" = none ∨ pget payload "RecordType" = some "") →
        (pget payload "Type" = none ∨ pget payload "Type" = some "") →
        e.type = "unknown") := by
  refine ⟨_, rfl, ?_, ?_⟩
  · exact map_pm_type_cases _ _
  · intro hrt hty
    show map_pm_type (pyLower (pgetD payload "RecordType" ""))
      (pget payload "Type") = "unknown"
    have hrt' : pgetD payload "RecordType" "" = "" := by
      rcases hrt with h | h <;> simp [pgetD, h]
    rw [hrt', show pyLower "" = "" from rfl]
    rcases hty with h | h <;> rw [h] <;> rfl

theorem C5_parse_tolerance_witness :
    ∃ e, parse_webhook (fun _ => none) 3 [] = [e] ∧
      (e.type ∈ eventTypeVocabulary ∨
        e.type = pyLower (pgetD [] "RecordType" "") ∨
        some e.type = pget [] "Type") ∧
      ((pget [] "RecordType" = none ∨ pget [] "RecordType" = some "") →
        (pget [] "Type" = none ∨ pget [] "Type" = some "") →
        e.type = "unknown") :=
  C5_parse_tolerance (fun _ => none) 3 []

/-! ### Tenant provider settings (`app/models/tenant.py`)

The setter's dynamically typed `value` argument is the sum of the cases the
source distinguishes with `isinstance`; `json.loads` succeeding is the
abstract decidable parameter `json_valid` (with its one load-bearing
property, that the empty string is not valid JSON, as an explicit
hypothesis where needed). -/

inductive PyValue where
  | pynone
  | pydict (d : List (String × Json))
  | pystr (s : String)
  | pyother

/-- The `Tenant.provider_settings` setter: returns the new value of the
persisted `provider_settings` column, or the raised `ValueError`. -/
def tenant_set_provider_settings (F : FernetLike) (json_valid : String → Bool)
    (value : PyValue) : Except String (Option String) :=
  match value with
  | .pynone => .ok none
  | .pydict [] => .ok none
  | .pystr s =>
    if is_encrypted (some s) then .ok (some s)
    else if json_valid s then
      match encrypt_password F (some s) with
      | .ok c => .ok (some c)
      | .error e => .error e
    else .error "provider_settings must be a valid JSON string or dict"
  | .pydict d =>
    match encrypt_password F (some (jsonDumps (Json.obj d))) with
    | .ok c => .ok (some c)
    | .error e => .error e
  | .pyother => .error "provider_settings must be a dict or JSON string"

theorem encrypt_password_dict (F : FernetLike) (d : List (String × Json)) :
    encrypt_password F (some (jsonDumps (Json.obj d)))
      = .ok (F.enc (jsonDumps (Json.obj d))) := by
  have hhead := jsonDumps_obj_head d
  have hne := nonempty_of_brace_head _ hhead
  have hnm := no_marker_of_brace_head _ hhead
  simp [encrypt_password, hne, hnm]

/-- C9: after any completed assignment to `provider_settings` the persisted
column is either absent (`None`) or a marker-prefixed ciphertext; `None` and
the empty dict store `None`; a non-empty dict always stores a
marker-prefixed string; an already-encrypted string is kept verbatim (and is
marker-prefixed); a plain valid-JSON string is encrypted to a
marker-prefixed string. -/
theorem C9_settings_invariant (F : FernetLike) (json_valid : String → Bool)
    (value : PyValue) (hjv : json_valid "" = false) :
    (∀ col, tenant_set_provider_settings F json_valid value = .ok col →
      col = none ∨ ∃ s, col = some s ∧ pyStartsWith s fernetMarker = true) ∧
    (tenant_set_provider_settings F json_valid .pynone = .ok none) ∧
    (tenant_set_provider_settings F json_valid (.pydict []) = .ok none) ∧
    (∀ d, d ≠ [] → ∃ s,
      tenant_set_provider_settings F json_valid (.pydict d) = .ok (some s) ∧
        pyStartsWith s fernetMarker = true) := by
  refine ⟨?_, rfl, rfl, ?_⟩
  · intro col hcol
    cases value with
    | pynone =>
      simp only [tenant_set_provider_settings] at hcol
      exact Or.inl (by injection hcol with h; exact h.symm)
    | pyother => simp [tenant_set_provider_settings] at hcol
    | pydict d =>
      cases d with
      | nil =>
        simp only [tenant_set_provider_settings] at hcol
        exact Or.inl (by injection hcol with h; exact h.symm)
      | cons kv d' =>
        rw [show tenant_set_provider_settings F json_valid (.pydict (kv :: d'))
            = match encrypt_password F (some (jsonDumps (Json.obj (kv :: d')))) with
              | .ok c => .ok (some c)
              | .error e => .error e
          from rfl, encrypt_password_dict] at hcol
        refine Or.inr ⟨F.enc (jsonDumps (Json.obj (kv :: d'))), ?_, F.enc_marker _⟩
        injection hcol with h
        exact h.symm
    | pystr s =>
      by_cases he : is_encrypted (some s) = true
      · rw [show tenant_set_provider_settings F json_valid (.pystr s)
            = if is_encrypted (some s) then .ok (some s)
              else if json_valid s then
                match encrypt_password F (some s) with
                | .ok c => .ok (some c)
                | .error e => .error e
              else .error "provider_settings must be a valid JSON string or dict"
          from rfl, if_pos he] at hcol
        have hmk : pyStartsWith s fernetMarker = true := by
          have := he
          simp only [is_encrypted, Bool.and_eq_true] at this
          exact this.2
        refine Or.inr ⟨s, ?_, hmk⟩
        injection hcol with h
        exact h.symm
      · rw [show tenant_set_provider_settings F json_valid (.pystr s)
            = if is_encrypted (some s) then .ok (some s)
              else if json_valid s then
                match encrypt_password F (some s) with
                | .ok c => .ok (some c)
                | .error e => .error e
              else .error "provider_settings must be a valid JSON string or dict"
          from rfl, if_neg he] at hcol
        by_cases hv : json_valid s = true
        · rw [if_pos hv] at hcol
          have hsne : s ≠ "" := by
            intro h0
            rw [h0, hjv] at hv
            exact Bool.noConfusion hv
          have hnm : pyStartsWith s fernetMarker = false := by
            simp only [is_encrypted, Bool.and_eq_true, Bool.not_eq_true] at he
            rcases Decidable.not_and_iff_or_not.mp he with h | h
            · exfalso
              apply hsne
              have := h
              simp only [bne, Bool.not_eq_true, Bool.not_not] at this
              simpa using this
            · simpa using h
          rw [show encrypt_password F (some s) = .ok (F.enc s) by
            simp [encrypt_password, hsne, hnm]] at hcol
          refine Or.inr ⟨F.enc s, ?_, F.enc_marker s⟩
          injection hcol with h
          exact h.symm
        · rw [if_neg hv] at hcol
          exact absurd hcol (by simp)
  · intro d hd
    cases d with
    | nil => exact absurd rfl hd
    | cons kv d' =>
      refine ⟨F.enc (jsonDumps (Json.obj (kv :: d'))), ?_, F.enc_marker _⟩
      rw [show tenant_set_provider_settings F json_valid (.pydict (kv :: d'))
          = match encrypt_password F (some (jsonDumps (Json.obj (kv :: d')))) with
            | .ok c => .ok (some c)
            | .error e => .error e
        from rfl, encrypt_password_dict]

theorem C9_settings_invariant_witness :
    ((fun s => s == "\x7b\x7d") "" = false) ∧
    ((∀ col, tenant_set_provider_settings refFernet (fun s => s == "\x7b\x7d")
        (.pydict [("api_key", Json.str "k")]) = .ok col →
      col = none ∨ ∃ s, col = some s ∧ pyStartsWith s fernetMarker = true) ∧
    (tenant_set_provider_settings refFernet (fun s => s == "\x7b\x7d") .pynone
      = .ok none) ∧
    (tenant_set_provider_settings refFernet (fun s => s == "\x7b\x7d") (.pydict [])
      = .ok none) ∧
    (∀ d, d ≠ [] → ∃ s,
      tenant_set_provider_settings refFernet (fun s => s == "\x7b\x7d") (.pydict d)
          = .ok (some s) ∧
        pyStartsWith s fernetMarker = true)) :=
  ⟨by decide,
    C9_settings_invariant refFernet (fun s => s == "\x7b\x7d")
      (.pydict [("api_key", Json.str "k")]) (by decide)⟩
